import Mathlib

/-!
Verification development for the WhaleVybe Telegram bot (`bot.py`).

The development shallowly embeds the bot's core: the Solana wallet-address
validator, the raw-data formatter, the Remote Data Gateway fetch helpers,
the per-user wallet store, and the per-user conversation state machine
(`user_states` / `saved_wallets` and the handlers that mutate them).
Python strings are modelled as Lean `String` (a list of characters),
Python dicts of JSON-like data as association lists in insertion order,
and network I/O as an explicit `HttpOutcome` argument describing what the
remote host did.
-/

set_option maxRecDepth 8000

namespace WhaleVybes

/-! ## Python string primitives used by the handlers -/

/-- Characters stripped by Python `str.strip()` (ASCII whitespace:
space, tab, newline, carriage return, vertical tab, form feed). -/
def pyWhitespaceChar (c : Char) : Bool :=
  c.toNat = 32 || c.toNat = 9 || c.toNat = 10 || c.toNat = 13 ||
  c.toNat = 11 || c.toNat = 12

/-- Python `text.strip()`: drop leading and trailing whitespace. -/
def pyStrip (s : String) : String :=
  String.mk (((s.data.dropWhile pyWhitespaceChar).reverse.dropWhile pyWhitespaceChar).reverse)

/-- Python `text.replace(" ", "")`: remove every space character (code 32),
interior ones included. -/
def removeSpaces (s : String) : String :=
  String.mk (s.data.filter (fun c => !(c.toNat = 32)))

/-- Python `key.capitalize()`: first character upper-cased, the rest
lower-cased (ASCII model). -/
def pyCapitalize (s : String) : String :=
  match s.data with
  | [] => ""
  | c :: cs => String.mk (c.toUpper :: cs.map Char.toLower)

/-- Alphanumeric characters for Python `str.isalnum()` (ASCII model:
A-Z, a-z, 0-9). -/
def pyAlnumChar (c : Char) : Bool :=
  (65 ≤ c.toNat && c.toNat ≤ 90) || (97 ≤ c.toNat && c.toNat ≤ 122) ||
  (48 ≤ c.toNat && c.toNat ≤ 57)

/-- Python `s.isalnum()`: nonempty and every character alphanumeric. -/
def py_isalnum (s : String) : Bool :=
  !s.data.isEmpty && s.data.all pyAlnumChar

/-! ## Address Validator (bot.py lines 35-37)

`BASE58_REGEX = re.compile(r'^[A-HJ-NP-Za-km-z1-9]{32,44}$')` and
`is_valid_wallet_address(addr) = bool(BASE58_REGEX.fullmatch(addr))`.
A full match of this pattern holds exactly when every character lies in
the character class and the length is between 32 and 44. -/

/-- The regex character class `[A-HJ-NP-Za-km-z1-9]`, by code point:
A-H is 65-72, J-N is 74-78, P-Z is 80-90, a-k is 97-107, m-z is 109-122,
1-9 is 49-57. -/
def inBase58RegexClass (c : Char) : Bool :=
  (65 ≤ c.toNat && c.toNat ≤ 72) || (74 ≤ c.toNat && c.toNat ≤ 78) ||
  (80 ≤ c.toNat && c.toNat ≤ 90) ||
  (97 ≤ c.toNat && c.toNat ≤ 107) || (109 ≤ c.toNat && c.toNat ≤ 122) ||
  (49 ≤ c.toNat && c.toNat ≤ 57)

/-- Embeds `is_valid_wallet_address` (bot.py lines 36-37): a full-string
match of `[A-HJ-NP-Za-km-z1-9]{32,44}`. -/
def is_valid_wallet_address (s : String) : Bool :=
  decide (32 ≤ s.length) && decide (s.length ≤ 44) && s.data.all inBase58RegexClass

/-- The base58 alphabet as the specification words it: digits except `0`
(49-57), uppercase letters (65-90) except `O` (79) and `I` (73), lowercase
letters (97-122) except `l` (108). Written independently of the regex, for
comparison with `inBase58RegexClass`. -/
def base58AlphabetChar (c : Char) : Bool :=
  (48 ≤ c.toNat && c.toNat ≤ 57 && !(c.toNat = 48)) ||
  (65 ≤ c.toNat && c.toNat ≤ 90 && !(c.toNat = 79) && !(c.toNat = 73)) ||
  (97 ≤ c.toNat && c.toNat ≤ 122 && !(c.toNat = 108))

theorem base58_class_eq_spec (c : Char) : inBase58RegexClass c = base58AlphabetChar c := by
  rw [Bool.eq_iff_iff]
  simp only [inBase58RegexClass, base58AlphabetChar, Bool.or_eq_true, Bool.and_eq_true,
    decide_eq_true_eq, Bool.not_eq_true', decide_eq_false_iff_not]
  omega

/-! ## JSON-like payloads

Values the remote API can return and the formatter can receive: strings,
integers, booleans, null, lists, and dicts. A dict is an association list
in insertion order (Python dict keys are unique; nothing below depends on
uniqueness). -/

inductive RawData where
  | str (s : String)
  | num (n : Int)
  | boolean (b : Bool)
  | null
  | list (xs : List RawData)
  | dict (kvs : List (String × RawData))

/-- Python truthiness of a JSON-like value (`if data:`). -/
def pyTruthy : RawData → Bool
  | .str s => !s.data.isEmpty
  | .num n => !(n = 0)
  | .boolean b => b
  | .null => false
  | .list xs => !xs.isEmpty
  | .dict kvs => !kvs.isEmpty

/-- Python `key in data` / `data[key]` on a dict: the (unique) binding for
the key, scanning in insertion order. -/
def pyLookup : List (String × RawData) → String → Option RawData
  | [], _ => none
  | (k', v) :: rest, k => if k' = k then some v else pyLookup rest k

/-- Python `"\n".join(lines)`. -/
def joinNL : List String → String
  | [] => ""
  | [l] => l
  | l :: ls => l ++ "\n" ++ joinNL ls

/-- The priority key order of `format_raw_data` (bot.py line 1046). -/
def priority_fields : List String :=
  ["name", "symbol", "address", "mintAddress", "amount", "value", "error"]

theorem sizeOf_list_take {α : Type} [SizeOf α] (xs : List α) (n : Nat) :
    sizeOf (xs.take n) ≤ sizeOf xs := by
  induction xs generalizing n with
  | nil => cases n <;> simp
  | cons x t ih =>
    cases n with
    | zero => simp; omega
    | succ m =>
      simp only [List.take_succ_cons, List.cons.sizeOf_spec]
      have := ih m
      omega

theorem sizeOf_pyLookup {kvs : List (String × RawData)} {k : String} {v : RawData}
    (h : pyLookup kvs k = some v) : sizeOf v < sizeOf kvs := by
  induction kvs with
  | nil => simp [pyLookup] at h
  | cons p rest ih =>
    obtain ⟨k', v'⟩ := p
    simp only [pyLookup] at h
    split at h
    · cases h
      simp only [List.cons.sizeOf_spec, Prod.mk.sizeOf_spec]
      omega
    · have := ih h
      simp only [List.cons.sizeOf_spec]
      omega

/-! ## Raw-Data Formatter (bot.py lines 1019-1069)

`format_raw_data(data, max_chars, max_items)`:
- a string is cut to `max_chars` characters with a `...(truncated)` marker;
- a list renders a header with the total count, then the first `max_items`
  entries each recursively formatted with the fixed budget (200, 2) and
  numbered from 1, then an `...and N more items` trailer;
- a dict renders `Dictionary data:` followed by at most 5 fields, priority
  keys first then remaining keys in insertion order; a dict or list value
  is recursively formatted with budget (200, 2) while a scalar value is
  interpolated by `str(value)` as-is; trailer `...and N more fields`;
- any other scalar is serialized as by `json.dumps` and cut to `max_chars`.
The Python body is wrapped in `try/except`; no branch of the embedded
(total) semantics raises. -/

mutual

def format_raw_data (data : RawData) (max_chars max_items : Nat) : String :=
  match data with
  | .str s =>
      if s.length > max_chars then String.mk (s.data.take max_chars) ++ "...(truncated)"
      else s
  | .list xs =>
      if xs.isEmpty then "Empty list"
      else
        let header := "List with " ++ toString xs.length ++ " items (showing up to " ++
          toString max_items ++ "):"
        let items := fmtListItems (xs.take max_items) 1
        let trailer :=
          if xs.length > max_items then
            ["...and " ++ toString (xs.length - max_items) ++ " more items"]
          else []
        joinNL (header :: (items ++ trailer))
  | .dict kvs =>
      let p := fmtDictPriority priority_fields kvs 0
      let r := fmtDictRest kvs p.2
      let lines := "Dictionary data:" :: (p.1 ++ r.1)
      let lines :=
        if kvs.length > r.2 then
          lines ++ ["...and " ++ toString (kvs.length - r.2) ++ " more fields"]
        else lines
      joinNL lines
  | .num n =>
      let j := toString n
      if j.length > max_chars then String.mk (j.data.take max_chars) ++ "...(truncated)" else j
  | .boolean b =>
      let j := if b then "true" else "false"
      if j.length > max_chars then String.mk (j.data.take max_chars) ++ "...(truncated)" else j
  | .null =>
      let j := "null"
      if j.length > max_chars then String.mk (j.data.take max_chars) ++ "...(truncated)" else j
termination_by (sizeOf data, 0)
decreasing_by
  · exact Prod.Lex.left _ _ (by
      have := sizeOf_list_take xs max_items
      simp only [RawData.list.sizeOf_spec]
      omega)
  · exact Prod.Lex.left _ _ (by simp only [RawData.dict.sizeOf_spec]; omega)
  · exact Prod.Lex.left _ _ (by simp only [RawData.dict.sizeOf_spec]; omega)

/-- The `for i, item in enumerate(data[:max_items], 1)` loop of the list
branch: each (already sliced) item recursively formatted with the fixed
budget `max_chars=200, max_items=2`. -/
def fmtListItems : List RawData → Nat → List String
  | [], _ => []
  | x :: xs, i => (toString i ++ ". " ++ format_raw_data x 200 2) :: fmtListItems xs (i + 1)
termination_by l _ => (sizeOf l, 1)
decreasing_by
  · exact Prod.Lex.left _ _ (by simp only [List.cons.sizeOf_spec]; omega)
  · exact Prod.Lex.left _ _ (by simp only [List.cons.sizeOf_spec]; omega)

/-- The first dict loop (bot.py lines 1048-1054): walk `priority_fields`,
rendering present keys while fewer than 5 fields are shown. Returns the
rendered lines and the updated `shown_fields` counter. -/
def fmtDictPriority : List String → List (String × RawData) → Nat → List String × Nat
  | [], _, shown => ([], shown)
  | k :: ks, kvs, shown =>
      match h : pyLookup kvs k with
      | some v =>
          if shown < 5 then
            let value :=
              match v with
              | .dict ds => format_raw_data (.dict ds) 200 2
              | .list ls => format_raw_data (.list ls) 200 2
              | .str s => s
              | .num n => toString n
              | .boolean b => if b then "True" else "False"
              | .null => "None"
            let rest := fmtDictPriority ks kvs (shown + 1)
            ((" • " ++ pyCapitalize k ++ ": " ++ value) :: rest.1, rest.2)
          else fmtDictPriority ks kvs shown
      | none => fmtDictPriority ks kvs shown
termination_by ks kvs _ => (sizeOf kvs, 2 + ks.length)
decreasing_by
  · exact Prod.Lex.left _ _ (sizeOf_pyLookup h)
  · exact Prod.Lex.left _ _ (sizeOf_pyLookup h)
  · exact Prod.Lex.right _ (by simp only [List.length_cons]; omega)
  · exact Prod.Lex.right _ (by simp only [List.length_cons]; omega)
  · exact Prod.Lex.right _ (by simp only [List.length_cons]; omega)

/-- The second dict loop (bot.py lines 1055-1060): walk the remaining
items in insertion order, skipping priority keys, while fewer than 5
fields are shown. -/
def fmtDictRest : List (String × RawData) → Nat → List String × Nat
  | [], shown => ([], shown)
  | (k, v) :: rest, shown =>
      if priority_fields.contains k = false ∧ shown < 5 then
        let value :=
          match v with
          | .dict ds => format_raw_data (.dict ds) 200 2
          | .list ls => format_raw_data (.list ls) 200 2
          | .str s => s
          | .num n => toString n
          | .boolean b => if b then "True" else "False"
          | .null => "None"
        let r := fmtDictRest rest (shown + 1)
        ((" • " ++ pyCapitalize k ++ ": " ++ value) :: r.1, r.2)
      else fmtDictRest rest shown
termination_by l _ => (sizeOf l, 2)
decreasing_by
  · exact Prod.Lex.left _ _ (by
      simp only [List.cons.sizeOf_spec, Prod.mk.sizeOf_spec]
      omega)
  · exact Prod.Lex.left _ _ (by
      simp only [List.cons.sizeOf_spec, Prod.mk.sizeOf_spec]
      omega)
  · exact Prod.Lex.left _ _ (by simp only [List.cons.sizeOf_spec]; omega)
  · exact Prod.Lex.left _ _ (by simp only [List.cons.sizeOf_spec]; omega)

end

/-! Python `str()` / `repr()` of a JSON-like value, used by the
`len(str(raw_data)) > max_chars` heuristic of the show-more handler
(bot.py line 337). String escaping inside `repr` is not modelled (the
concrete payloads below contain no quotes or escapes). -/

mutual

def pyRepr : RawData → String
  | .str s => "\x27" ++ s ++ "\x27"
  | .num n => toString n
  | .boolean b => if b then "True" else "False"
  | .null => "None"
  | .list xs => "[" ++ pyReprItems xs ++ "]"
  | .dict kvs => "\x7b" ++ pyReprEntries kvs ++ "\x7d"
termination_by d => (sizeOf d, 0)
decreasing_by
  · exact Prod.Lex.left _ _ (by simp only [RawData.list.sizeOf_spec]; omega)
  · exact Prod.Lex.left _ _ (by simp only [RawData.dict.sizeOf_spec]; omega)

def pyReprItems : List RawData → String
  | [] => ""
  | [x] => pyRepr x
  | x :: xs => pyRepr x ++ ", " ++ pyReprItems xs
termination_by l => (sizeOf l, 1)
decreasing_by
  · exact Prod.Lex.left _ _ (by simp only [List.cons.sizeOf_spec]; omega)
  · exact Prod.Lex.left _ _ (by simp only [List.cons.sizeOf_spec]; omega)
  · exact Prod.Lex.left _ _ (by simp only [List.cons.sizeOf_spec]; omega)

def pyReprEntries : List (String × RawData) → String
  | [] => ""
  | [(k, v)] => "\x27" ++ k ++ "\x27: " ++ pyRepr v
  | (k, v) :: rest => "\x27" ++ k ++ "\x27: " ++ pyRepr v ++ ", " ++ pyReprEntries rest
termination_by l => (sizeOf l, 1)
decreasing_by
  · exact Prod.Lex.left _ _ (by
      simp only [List.cons.sizeOf_spec, Prod.mk.sizeOf_spec]
      omega)
  · exact Prod.Lex.left _ _ (by
      simp only [List.cons.sizeOf_spec, Prod.mk.sizeOf_spec]
      omega)
  · exact Prod.Lex.left _ _ (by simp only [List.cons.sizeOf_spec]; omega)

end

/-- Python `str(data)`: the string itself for a string, `repr` otherwise. -/
def pyStr : RawData → String
  | .str s => s
  | d => pyRepr d

/-! ## Remote Data Gateway (bot.py lines 774-1003)

A network call is modelled by what the remote host did: a response with a
status code, a raw body text, and (for status-200 bodies) the parsed JSON
value — `json` is `none` when `resp.json()` raises — or a transport-level
failure (timeout, connection error) carrying the exception text. -/

inductive HttpOutcome where
  | response (status : Nat) (body : String) (json : Option RawData)
  | failure (msg : String)

/-- Embeds `fetch_wallet_holdings` (bot.py lines 774-790): on status 200
return the parsed body (a parse error is caught by the outer `except` and
falls through to `return None`); on any other status it only logs and
falls through to `return None`; a transport failure is caught and also
yields `None`. -/
def fetch_wallet_holdings : HttpOutcome → Option RawData
  | .response status _ json => if status = 200 then json else none
  | .failure _ => none

/-- Embeds the second `fetch_token_transfers` definition (bot.py lines
945-976), the one in effect at runtime (it shadows the earlier definition
at line 835): status 200 returns the parsed body, or `{"raw_text": text}`
on a JSON parse error; any other status returns
`{"error": "Status <code>", "response": text}`; a transport failure
returns `{"error": str(e)}`. -/
def fetch_token_transfers : HttpOutcome → RawData
  | .response status body json =>
      if status = 200 then
        match json with
        | some d => d
        | none => .dict [("raw_text", .str body)]
      else .dict [("error", .str ("Status " ++ toString status)), ("response", .str body)]
  | .failure msg => .dict [("error", .str msg)]

/-- Embeds `fetch_token_details` (bot.py lines 978-1003): same
error-to-result mapping as `fetch_token_transfers`. -/
def fetch_token_details : HttpOutcome → RawData
  | .response status body json =>
      if status = 200 then
        match json with
        | some d => d
        | none => .dict [("raw_text", .str body)]
      else .dict [("error", .str ("Status " ++ toString status)), ("response", .str body)]
  | .failure msg => .dict [("error", .str msg)]

/-- Embeds `fetch_instruction_names` (bot.py lines 918-943): same
error-to-result mapping as `fetch_token_transfers`. -/
def fetch_instruction_names : HttpOutcome → RawData
  | .response status body json =>
      if status = 200 then
        match json with
        | some d => d
        | none => .dict [("raw_text", .str body)]
      else .dict [("error", .str ("Status " ++ toString status)), ("response", .str body)]
  | .failure msg => .dict [("error", .str msg)]

/-! ## Wallet Store and Conversation State Machine

`user_states[user_id] = {"step": ..., "temp": {...}}` and
`saved_wallets[user_id] = [{"address": ..., "nickname": ...}, ...]`
(bot.py lines 31-32). One user's state is modelled as a record; the
`defaultdict` default is `initialUserState`. -/

structure Wallet where
  address : String
  nickname : String
deriving DecidableEq

/-- The `step` values actually stored by the handlers. -/
inductive Step where
  | idle
  | awaitingWalletAddress
  | awaitingNickname
  | awaitingTokenDetails
  | awaitingTokenTransfers
deriving DecidableEq

/-- The `temp` scratch dict. The keys the handlers ever store are
`"address"` (save-wallet flow), `"raw_data_instruction_names"` and
`"raw_data_page_instruction_names"` (instruction-names pagination);
`none` models an absent key. -/
structure Scratch where
  address : Option String
  rawInstr : Option RawData
  rawInstrPage : Option Nat

/-- The empty `temp` dict `{}`. -/
def Scratch.empty : Scratch := ⟨none, none, none⟩

structure UserState where
  step : Step
  scratch : Scratch
  wallets : List Wallet

/-- The `defaultdict` defaults: `{"step": "idle", "temp": {}}` and `[]`. -/
def initialUserState : UserState := ⟨Step.idle, Scratch.empty, []⟩

/-- Embeds `process_delete_wallet_idx` (bot.py lines 533-553): out-of-range
positions answer "Wallet not found" and leave the store alone; otherwise
`wallets.pop(idx)` removes and returns the entry at that position. -/
def delete_wallet_step (wallets : List Wallet) (idx : Nat) :
    Option Wallet × List Wallet :=
  if idx ≥ wallets.length then (none, wallets)
  else (wallets[idx]?, wallets.eraseIdx idx)

/-- The caller-visible outcome of one free-text message (the reply sent
by `handle_user_input`). -/
inductive MsgOutcome where
  | invalidAddress
  | nicknamePrompt
  | emptyNickname
  | missingAddress
  | duplicateNotice (nickname : String)
  | savedNotice (idx : Nat)
  | tokenReprompt
  | tokenResult (payload : RawData)
  | idleFallback

/-- Embeds the free-text message handler `handle_user_input` (bot.py
lines 556-771), dispatching on the current step:
- `awaiting_wallet_address` (lines 563-579): strip the text, remove every
  remaining space, validate; on failure re-prompt without changing state;
  on success store the address in `temp` and move to `awaiting_nickname`;
- `awaiting_nickname` (lines 582-619): empty nickname re-prompts without
  changing state; a missing buffered address resets to idle with an error;
  a duplicate address notices and resets without touching the store;
  otherwise append and reset;
- `awaiting_token_details` (lines 622-697) and `awaiting_token_transfers`
  (lines 700-764): text shorter than 20 characters or not alphanumeric
  re-prompts without changing state; otherwise the state is reset to idle
  and the Gateway is called — the reset does not depend on `gw`;
- `idle` (lines 767-771): fallback reply, no state change. -/
def handle_user_input (st : UserState) (text : String) (gw : HttpOutcome) :
    UserState × MsgOutcome :=
  match st.step with
  | .awaitingWalletAddress =>
      let address := removeSpaces (pyStrip text)
      if is_valid_wallet_address address = false then (st, .invalidAddress)
      else
        ({ st with step := .awaitingNickname,
                   scratch := { st.scratch with address := some address } },
         .nicknamePrompt)
  | .awaitingNickname =>
      let nickname := pyStrip text
      if nickname = "" then (st, .emptyNickname)
      else
        match st.scratch.address with
        | none => ({ st with step := .idle, scratch := Scratch.empty }, .missingAddress)
        | some address =>
            match st.wallets.find? (fun w => w.address == address) with
            | some w =>
                ({ st with step := .idle, scratch := Scratch.empty },
                 .duplicateNotice w.nickname)
            | none =>
                let wallets := st.wallets ++ [⟨address, nickname⟩]
                ({ step := .idle, scratch := Scratch.empty, wallets := wallets },
                 .savedNotice (wallets.length - 1))
  | .awaitingTokenDetails =>
      let mint_address := pyStrip text
      if mint_address.length < 20 ∨ py_isalnum mint_address = false then
        (st, .tokenReprompt)
      else
        ({ st with step := .idle, scratch := Scratch.empty },
         .tokenResult (fetch_token_details gw))
  | .awaitingTokenTransfers =>
      let address := pyStrip text
      if address.length < 20 ∨ py_isalnum address = false then
        (st, .tokenReprompt)
      else
        ({ st with step := .idle, scratch := Scratch.empty },
         .tokenResult (fetch_token_transfers gw))
  | .idle => (st, .idleFallback)

/-- The primitive effects of the token-details / token-transfers branch
of `handle_user_input`, in program order. -/
inductive HandlerOp where
  | answer
  | setIdle
  | gatewayCall
deriving DecidableEq

/-- The effect trace of the token-input branches (bot.py lines 622-697 and
700-764): an invalid input only answers a re-prompt; a valid input answers
the loading message, resets the state to idle (line 632 / 710), issues the
Gateway call (line 635 / 713), answers the result, and resets again
(line 696 / 763). -/
def token_input_ops (text : String) : List HandlerOp :=
  let stripped := pyStrip text
  if stripped.length < 20 ∨ py_isalnum stripped = false then
    [.answer]
  else
    [.answer, .setIdle, .gatewayCall, .answer, .setIdle]

/-- Embeds the state effect of `process_instruction_names` (bot.py lines
281-322): only the branch that receives a truthy non-list payload writes
`temp["raw_data_instruction_names"]` and resets the page counter to 0
(lines 302-303); a truthy list is rendered richly and a falsy result or
exception writes nothing. `step` is never touched. -/
def instruction_names_update (sc : Scratch) (r : RawData) : Scratch :=
  if pyTruthy r then
    match r with
    | .list _ => sc
    | _ => { sc with rawInstr := some r, rawInstrPage := some 0 }
  else sc

/-- What one Show More activation produced: the enlarged budgets and,
when a truthy payload was cached, the re-rendered text together with the
decision whether the Show More button is kept. -/
structure ShowMoreRender where
  max_chars : Nat
  max_items : Nat
  rendered : Option (String × Bool)

/-- Embeds `process_show_more_instruction_names` (bot.py lines 324-349):
increment the page counter (`temp.get(page, 0) + 1`), enlarge both budgets
to `1000 * (page + 1)` and `3 * (page + 1)`, re-render the cached payload,
and keep the Show More button iff the payload is a list or dict and
`len(str(raw_data)) > max_chars` or it is a list longer than `max_items`
(line 337); with no truthy cached payload, answer "No more data to show." -/
def process_show_more (st : UserState) : UserState × ShowMoreRender :=
  let page := st.scratch.rawInstrPage.getD 0 + 1
  let st' := { st with scratch := { st.scratch with rawInstrPage := some page } }
  let max_chars := 1000 * (page + 1)
  let max_items := 3 * (page + 1)
  match st.scratch.rawInstr with
  | some raw =>
      if pyTruthy raw then
        let keep :=
          (match raw with
           | .list _ => true
           | .dict _ => true
           | _ => false) &&
          (decide ((pyStr raw).length > max_chars) ||
           (match raw with
            | .list xs => decide (xs.length > max_items)
            | _ => false))
        (st', ⟨max_chars, max_items, some (format_raw_data raw max_chars max_items, keep)⟩)
      else (st', ⟨max_chars, max_items, none⟩)
  | none => (st', ⟨max_chars, max_items, none⟩)

/-- `n` successive Show More activations (state component only). -/
def iter_show_more : Nat → UserState → UserState
  | 0, st => st
  | n + 1, st => (process_show_more (iter_show_more n st)).1

/-- The events one user can feed the bot, as seen by the state machine:
commands, menu selections (callback queries), and free-text messages.
Events whose handlers perform a network call carry the remote outcome. -/
inductive Event where
  | cmdStart
  | cmdCancel
  | cmdHelp
  | mainMenu
  | walletMenu
  | tokenMenu
  | saveWalletStart
  | myWallets
  | selectWallet (idx : Nat)
  | tokenDetailsStart
  | tokenTransfersStart
  | instructionNames (r : RawData)
  | showMoreInstructionNames
  | demo
  | viewHoldings (idx : Nat) (gw : HttpOutcome)
  | recentTransfers (idx : Nat) (gw : HttpOutcome)
  | setAlert (idx : Nat)
  | deleteWallet (idx : Nat)
  | endChat
  | textMessage (text : String) (gw : HttpOutcome)

/-- One user's state transition for one event, collected from every
handler in bot.py that touches `user_states[user_id]` or
`saved_wallets[user_id]`:
`/start` (line 126), `/cancel` (line 144), main menu (line 171),
save-wallet start (line 199), token-details start (line 263),
token-transfers start (line 273), instruction names (lines 302-303),
show more (lines 327-330), delete wallet (line 546), end chat (line 1084),
and the free-text handler (lines 556-771). `/help`, the wallet and token
menus, `my_wallets`, wallet selection, the demo, view holdings, recent
transfers, and the alert stub never write state. -/
def dispatch (st : UserState) (e : Event) : UserState :=
  match e with
  | .cmdStart => { st with step := .idle, scratch := Scratch.empty }
  | .cmdCancel => { st with step := .idle, scratch := Scratch.empty }
  | .cmdHelp => st
  | .mainMenu => { st with step := .idle, scratch := Scratch.empty }
  | .walletMenu => st
  | .tokenMenu => st
  | .saveWalletStart => { st with step := .awaitingWalletAddress, scratch := Scratch.empty }
  | .myWallets => st
  | .selectWallet _ => st
  | .tokenDetailsStart => { st with step := .awaitingTokenDetails, scratch := Scratch.empty }
  | .tokenTransfersStart =>
      { st with step := .awaitingTokenTransfers, scratch := Scratch.empty }
  | .instructionNames r => { st with scratch := instruction_names_update st.scratch r }
  | .showMoreInstructionNames => (process_show_more st).1
  | .demo => st
  | .viewHoldings _ _ => st
  | .recentTransfers _ _ => st
  | .setAlert _ => st
  | .deleteWallet idx => { st with wallets := (delete_wallet_step st.wallets idx).2 }
  | .endChat => { st with step := .idle, scratch := Scratch.empty }
  | .textMessage text gw => (handle_user_input st text gw).1

/-- States one user can actually be in: the `defaultdict` default followed
by any sequence of events. -/
inductive Reachable : UserState → Prop where
  | init : Reachable initialUserState
  | step {s : UserState} (e : Event) : Reachable s → Reachable (dispatch s e)

/-- The check guarding the token-details and token-transfers text inputs
(bot.py lines 624 and 702): `len(text) < 20 or not text.isalnum()`
re-prompts, so the input is forwarded iff this holds. -/
def token_input_ok (s : String) : Bool :=
  !(decide (s.length < 20) || !py_isalnum s)

/-- A string of `n` copies of `x`. -/
def xRun (n : Nat) : String := String.mk (List.replicate n 'x')

/-- Fifty `0` characters: alphanumeric and of length at least 20, yet
rejected by the wallet-address validator (it contains `0` and is longer
than 44). -/
def fiftyZeros : String := String.mk (List.replicate 50 '0')

/-- A six-field dict of small scalars, cached as an instruction-names
payload. -/
def sixFieldDict : RawData :=
  .dict [("k1", .num 1), ("k2", .num 2), ("k3", .num 3),
         ("k4", .num 4), ("k5", .num 5), ("k6", .num 6)]

/-- The Python `str()` rendering of `sixFieldDict`. -/
def d6Repr : String :=
  "\x7b\x27k1\x27: 1, \x27k2\x27: 2, \x27k3\x27: 3, \x27k4\x27: 4, \x27k5\x27: 5, \x27k6\x27: 6\x7d"

/-- What `format_raw_data sixFieldDict 2000 6` renders: five fields and a
`...and 1 more fields` truncation trailer. -/
def d6Render : String :=
  "Dictionary data:\n • K1: 1\n • K2: 2\n • K3: 3\n • K4: 4\n • K5: 5\n...and 1 more fields"

/-! ## Theorems -/

/-- C1: `is_valid_wallet_address(s)` returns true if and only if `s`
consists only of characters of the base58 alphabet (digits without `0`,
uppercase letters without `O` and `I`, lowercase letters without `l`) and
has length between 32 and 44 inclusive, matched against the full string.
The function is a pure predicate of `s` (its embedding is a function with
no state argument), so it has no side effects. -/
theorem is_valid_wallet_address_iff (s : String) :
    is_valid_wallet_address s = true ↔
      32 ≤ s.length ∧ s.length ≤ 44 ∧ ∀ c ∈ s.data, base58AlphabetChar c = true := by
  simp only [is_valid_wallet_address, Bool.and_eq_true, decide_eq_true_eq,
    List.all_eq_true, base58_class_eq_spec]
  tauto

/-- C6: the delete-wallet operation at an in-range position removes
exactly that entry and returns it, the remaining entries being the
original ones minus that index in their original relative order (hence
one shorter); an out-of-range position yields "not found" and leaves the
store unchanged. -/
theorem delete_wallet_step_spec (wallets : List Wallet) (idx : Nat) :
    (idx < wallets.length →
       (delete_wallet_step wallets idx).1 = wallets[idx]? ∧
       (delete_wallet_step wallets idx).2 = wallets.take idx ++ wallets.drop (idx + 1) ∧
       (delete_wallet_step wallets idx).2.length = wallets.length - 1) ∧
    (wallets.length ≤ idx → delete_wallet_step wallets idx = (none, wallets)) := by
  constructor
  · intro h
    have hcond : ¬ idx ≥ wallets.length := by omega
    simp only [delete_wallet_step, if_neg hcond]
    refine ⟨by trivial, ?_, ?_⟩
    · exact List.eraseIdx_eq_take_drop_succ wallets idx
    · have := List.length_eraseIdx_add_one (l := wallets) (i := idx) h
      omega
  · intro h
    have hcond : idx ≥ wallets.length := h
    simp only [delete_wallet_step, if_pos hcond]

theorem delete_wallet_step_spec_witness :
    (delete_wallet_step [⟨"A", "one"⟩, ⟨"B", "two"⟩] 0).1 = some ⟨"A", "one"⟩ ∧
    (delete_wallet_step [⟨"A", "one"⟩, ⟨"B", "two"⟩] 0).2 = [⟨"B", "two"⟩] ∧
    delete_wallet_step ([] : List Wallet) 3 = (none, []) := by
  have h := (delete_wallet_step_spec [⟨"A", "one"⟩, ⟨"B", "two"⟩] 0).1 (by decide)
  have h2 := (delete_wallet_step_spec ([] : List Wallet) 3).2 (by decide)
  refine ⟨?_, ?_, h2⟩
  · rw [h.1]
    decide
  · rw [h.2.1]
    decide

/-- C7 counterexample: the claim fails for `fetch_wallet_holdings`. On a
non-success status it returns `None` — the very value that also encodes
"empty" — carrying neither the status indicator nor the body text, while
`fetch_token_transfers` on the same outcome does return the structured
failure value. -/
theorem fetch_wallet_holdings_nonsuccess_returns_none :
    fetch_wallet_holdings (HttpOutcome.response 500 "Internal Server Error" none) = none ∧
    fetch_token_transfers (HttpOutcome.response 500 "Internal Server Error" none) =
      RawData.dict [("error", RawData.str "Status 500"),
                    ("response", RawData.str "Internal Server Error")] :=
  ⟨rfl, rfl⟩

/-- C7 amended: for `fetch_token_transfers` (the definition in effect),
`fetch_token_details` and `fetch_instruction_names`, a non-success status
yields the structured failure value `{"error": "Status <code>",
"response": <body>}` and a transport failure yields `{"error": <message>}`;
`fetch_wallet_holdings`, however, returns `None` on both kinds of failure,
dropping the status and body. No failure raises past the Gateway boundary:
each of these outcomes is returned as an ordinary value. -/
theorem gateway_failure_shapes (status : Nat) (body msg : String)
    (json : Option RawData) (h : status ≠ 200) :
    fetch_token_transfers (.response status body json) =
      .dict [("error", .str ("Status " ++ toString status)), ("response", .str body)] ∧
    fetch_token_details (.response status body json) =
      .dict [("error", .str ("Status " ++ toString status)), ("response", .str body)] ∧
    fetch_instruction_names (.response status body json) =
      .dict [("error", .str ("Status " ++ toString status)), ("response", .str body)] ∧
    fetch_wallet_holdings (.response status body json) = none ∧
    fetch_token_transfers (.failure msg) = .dict [("error", .str msg)] ∧
    fetch_token_details (.failure msg) = .dict [("error", .str msg)] ∧
    fetch_instruction_names (.failure msg) = .dict [("error", .str msg)] ∧
    fetch_wallet_holdings (.failure msg) = none := by
  refine ⟨?_, ?_, ?_, ?_, rfl, rfl, rfl, rfl⟩ <;>
    simp [fetch_token_transfers, fetch_token_details, fetch_instruction_names,
      fetch_wallet_holdings, h]

theorem gateway_failure_shapes_witness :
    fetch_token_transfers (.response 502 "Bad Gateway" none) =
      .dict [("error", .str "Status 502"), ("response", .str "Bad Gateway")] ∧
    fetch_wallet_holdings (.response 502 "Bad Gateway" none) = none :=
  ⟨(gateway_failure_shapes 502 "Bad Gateway" "m" none (by decide)).1,
   (gateway_failure_shapes 502 "Bad Gateway" "m" none (by decide)).2.2.2.1⟩

theorem format_single_scalar_dict_exact (s : String) (max_chars max_items : Nat) :
    format_raw_data (.dict [("a", .str s)]) max_chars max_items =
      "Dictionary data:" ++ "\n" ++ (" • A: " ++ s) := by
  simp [format_raw_data, fmtDictPriority, fmtDictRest, pyLookup, priority_fields,
    joinNL, pyCapitalize]

/-- C2: evaluating `format_raw_data` at the failing input
`{"a": "x" * 100000}` with `max_chars = 1000`, `max_items = 3`. The dict
branch interpolates scalar values with `str(value)` and never applies
`max_chars` to them, so the output has length `100023`, more than 100
times the budget: the output is not bounded by any quantity proportional
to `max_chars` (a longer scalar makes it longer still). -/
theorem format_raw_data_dict_scalar_unbounded :
    (format_raw_data (.dict [("a", .str (xRun 100000))]) 1000 3).length = 100023 ∧
    100 * 1000 < (format_raw_data (.dict [("a", .str (xRun 100000))]) 1000 3).length := by
  have h := format_single_scalar_dict_exact (xRun 100000) 1000 3
  have hx : (xRun 100000).length = 100000 := by
    show (List.replicate 100000 'x').length = 100000
    rw [List.length_replicate]
  have h1 : ("Dictionary data:" : String).length = 16 := rfl
  have h2 : ("\n" : String).length = 1 := rfl
  have h3 : (" • A: " : String).length = 6 := rfl
  constructor
  · rw [h]
    simp only [String.length_append, h1, h2, h3, hx]
  · rw [h]
    simp only [String.length_append, h1, h2, h3, hx]
    omega

theorem base58_char_is_alnum (c : Char) (h : inBase58RegexClass c = true) :
    pyAlnumChar c = true := by
  simp only [inBase58RegexClass, pyAlnumChar, Bool.or_eq_true, Bool.and_eq_true,
    decide_eq_true_eq] at h ⊢
  omega

/-- C10: the token-details / token-transfers input check accepts exactly
the alphanumeric strings of length at least 20; every string the wallet
validator accepts passes it, while `fiftyZeros` (fifty `0` characters,
rejected by the validator for containing `0` and being longer than 44) is
still forwarded to the Gateway — the handler resets to idle and returns
the fetched payload rather than re-prompting. -/
theorem token_input_check_weaker_than_validator :
    (∀ s : String, token_input_ok s = true ↔
       20 ≤ s.length ∧ ∀ c ∈ s.data, pyAlnumChar c = true) ∧
    (∀ s : String, is_valid_wallet_address s = true → token_input_ok s = true) ∧
    token_input_ok fiftyZeros = true ∧
    is_valid_wallet_address fiftyZeros = false ∧
    (handle_user_input ⟨Step.awaitingTokenDetails, Scratch.empty, []⟩ fiftyZeros
        (HttpOutcome.failure "boom")).1.step = Step.idle ∧
    (handle_user_input ⟨Step.awaitingTokenDetails, Scratch.empty, []⟩ fiftyZeros
        (HttpOutcome.failure "boom")).2 =
      MsgOutcome.tokenResult (fetch_token_details (HttpOutcome.failure "boom")) := by
  have hchar : ∀ s : String, token_input_ok s = true ↔
      20 ≤ s.length ∧ ∀ c ∈ s.data, pyAlnumChar c = true := by
    intro s
    have hlen : s.length = s.data.length := rfl
    constructor
    · intro h
      simp [token_input_ok, py_isalnum, List.all_eq_true, Nat.not_lt] at h
      exact ⟨h.1, h.2.2⟩
    · rintro ⟨h20, hall⟩
      have hne : s.data ≠ [] := by
        intro hd
        rw [hlen, hd] at h20
        simp at h20
      simp [token_input_ok, py_isalnum, List.all_eq_true, Nat.not_lt, hne]
      exact ⟨h20, hall⟩
  refine ⟨hchar, ?_, by decide, by decide, rfl, rfl⟩
  intro s hv
  simp only [is_valid_wallet_address, Bool.and_eq_true, decide_eq_true_eq,
    List.all_eq_true] at hv
  rw [hchar]
  exact ⟨by omega, fun c hc => base58_char_is_alnum c (hv.2 c hc)⟩

theorem token_input_check_weaker_than_validator_witness :
    token_input_ok (String.mk (List.replicate 32 'A')) = true :=
  token_input_check_weaker_than_validator.2.1 _ (by decide)

/-- C4 counterexample: the claim fails as stated, at an explicit input. A
user in `awaiting_token_details` who sends the text "hi" (shorter than 20
characters) is re-prompted and the state machine does NOT transition to
idle: the step is still `awaiting_token_details` after the message. -/
theorem token_details_invalid_text_keeps_state :
    (dispatch (dispatch initialUserState Event.tokenDetailsStart)
        (Event.textMessage "hi" (HttpOutcome.failure "network down"))).step =
      Step.awaitingTokenDetails ∧
    Step.awaitingTokenDetails ≠ Step.idle :=
  ⟨rfl, by decide⟩

/-- C4 amended: whenever a user in `awaiting_token_details` or
`awaiting_token_transfers` sends a text message that passes the input
check (stripped length at least 20 and alphanumeric), the state machine
transitions to idle regardless of the Gateway outcome, and in the
handler's effect trace a state reset precedes the Gateway call; a message
failing the check re-prompts and leaves the state unchanged (see the
counterexample). -/
theorem token_input_valid_resets_before_gateway (st : UserState) (text : String)
    (gw : HttpOutcome)
    (hstep : st.step = Step.awaitingTokenDetails ∨ st.step = Step.awaitingTokenTransfers)
    (hlen : 20 ≤ (pyStrip text).length)
    (halnum : py_isalnum (pyStrip text) = true) :
    (dispatch st (Event.textMessage text gw)).step = Step.idle ∧
    (dispatch st (Event.textMessage text gw)).scratch = Scratch.empty ∧
    token_input_ops text = [HandlerOp.answer, HandlerOp.setIdle, HandlerOp.gatewayCall,
      HandlerOp.answer, HandlerOp.setIdle] ∧
    ∃ i j : Nat, i < j ∧ (token_input_ops text)[i]? = some HandlerOp.setIdle ∧
      (token_input_ops text)[j]? = some HandlerOp.gatewayCall := by
  have hcond : ¬ ((pyStrip text).length < 20 ∨ py_isalnum (pyStrip text) = false) := by
    push_neg
    exact ⟨by omega, by simp [halnum]⟩
  have hops : token_input_ops text =
      [HandlerOp.answer, HandlerOp.setIdle, HandlerOp.gatewayCall, HandlerOp.answer,
       HandlerOp.setIdle] := by
    unfold token_input_ops
    rw [if_neg hcond]
  refine ⟨?_, ?_, hops, ⟨1, 2, by omega, by rw [hops]; rfl, by rw [hops]; rfl⟩⟩ <;>
    rcases hstep with h | h <;>
      simp only [dispatch, handle_user_input, h, if_neg hcond]

theorem token_input_valid_resets_before_gateway_witness :
    (dispatch ⟨Step.awaitingTokenDetails, Scratch.empty, []⟩
        (Event.textMessage "aaaaaaaaaaaaaaaaaaaaaaaa" (HttpOutcome.failure "boom"))).step =
      Step.idle :=
  (token_input_valid_resets_before_gateway ⟨Step.awaitingTokenDetails, Scratch.empty, []⟩
    "aaaaaaaaaaaaaaaaaaaaaaaa" (HttpOutcome.failure "boom") (Or.inl rfl)
    (by decide) (by decide)).1

/-- C5: in the `awaiting_nickname` step with a buffered address and a
nonempty nickname, an address already present in the user's store leaves
the store unchanged (same entries, same order) and yields a caller-visible
duplicate notice (carrying the existing entry's nickname) with the state
reset to idle; otherwise the entry is appended at the end and the reported
position is the previous store length. -/
theorem awaiting_nickname_duplicate_or_append (st : UserState) (text : String)
    (gw : HttpOutcome) (address : String)
    (hstep : st.step = Step.awaitingNickname)
    (haddr : st.scratch.address = some address)
    (hnick : pyStrip text ≠ "") :
    (match st.wallets.find? (fun w => w.address == address) with
     | some w =>
         handle_user_input st text gw =
           ({ st with step := Step.idle, scratch := Scratch.empty },
            MsgOutcome.duplicateNotice w.nickname)
     | none =>
         handle_user_input st text gw =
           ((⟨Step.idle, Scratch.empty, st.wallets ++ [⟨address, pyStrip text⟩]⟩ : UserState),
            MsgOutcome.savedNotice st.wallets.length)) := by
  cases hF : st.wallets.find? (fun w => w.address == address) with
  | some w =>
      simp only [handle_user_input, hstep, haddr, if_neg hnick, hF]
  | none =>
      simp only [handle_user_input, hstep, haddr, if_neg hnick, hF,
        List.length_append, List.length_cons, List.length_nil]
      norm_num

theorem awaiting_nickname_duplicate_or_append_witness :
    handle_user_input
        ⟨Step.awaitingNickname, ⟨some "DUPADDR", none, none⟩, [⟨"DUPADDR", "Main"⟩]⟩
        "Nick" (HttpOutcome.failure "x") =
      (⟨Step.idle, Scratch.empty, [⟨"DUPADDR", "Main"⟩]⟩,
       MsgOutcome.duplicateNotice "Main") := by
  have h := awaiting_nickname_duplicate_or_append
      ⟨Step.awaitingNickname, ⟨some "DUPADDR", none, none⟩, [⟨"DUPADDR", "Main"⟩]⟩
      "Nick" (HttpOutcome.failure "x") "DUPADDR" rfl rfl (by decide)
  simpa using h

theorem filter_dropWhile_eq (p q : Char → Bool) (l : List Char)
    (h : ∀ c ∈ l, q c = true → p c = false) :
    (l.dropWhile q).filter p = l.filter p := by
  induction l with
  | nil => rfl
  | cons c t ih =>
    rw [List.dropWhile_cons]
    by_cases hq : q c = true
    · have hpc : p c = false := h c (List.mem_cons_self c t) hq
      rw [if_pos hq, ih (fun x hx hqx => h x (List.mem_cons_of_mem _ hx) hqx)]
      simp [List.filter_cons, hpc]
    · rw [if_neg hq]

theorem removeSpaces_pyStrip (text : String)
    (h : ∀ c ∈ text.data, pyWhitespaceChar c = true → c.toNat = 32) :
    removeSpaces (pyStrip text) = removeSpaces text := by
  have hps : ∀ c, c.toNat = 32 →
      (fun c : Char => !(c.toNat = 32)) c = false := by
    intro c hc
    simp [hc]
  have h0 : ∀ c ∈ text.data, pyWhitespaceChar c = true →
      (fun c : Char => !(c.toNat = 32)) c = false :=
    fun c hc hq => hps c (h c hc hq)
  have h1 : ∀ c ∈ (text.data.dropWhile pyWhitespaceChar).reverse,
      pyWhitespaceChar c = true → (fun c : Char => !(c.toNat = 32)) c = false := by
    intro c hc hq
    exact hps c (h c (List.dropWhile_subset pyWhitespaceChar (List.mem_reverse.mp hc)) hq)
  refine congrArg String.mk ?_
  show (((text.data.dropWhile pyWhitespaceChar).reverse.dropWhile
      pyWhitespaceChar).reverse).filter _ = _
  rw [List.filter_reverse, filter_dropWhile_eq _ _ _ h1, List.filter_reverse,
    List.reverse_reverse, filter_dropWhile_eq _ _ _ h0]

/-- C9: every space character of the received text, interior as well as
leading or trailing, is removed before validation (`strip()` then
`replace(" ", "")`): for every input whose de-spaced form is a valid
wallet address, the `awaiting_wallet_address` handler accepts it, moving
to `awaiting_nickname` with the de-spaced form stored — even though
`is_valid_wallet_address` itself rejects any string containing a space. -/
theorem despaced_address_accepted :
    (∀ (st : UserState) (text : String) (gw : HttpOutcome),
       st.step = Step.awaitingWalletAddress →
       is_valid_wallet_address (removeSpaces text) = true →
       (dispatch st (Event.textMessage text gw)).step = Step.awaitingNickname ∧
       (dispatch st (Event.textMessage text gw)).scratch.address =
         some (removeSpaces text)) ∧
    (∀ s : String, (∃ c ∈ s.data, c.toNat = 32) → is_valid_wallet_address s = false) := by
  constructor
  · intro st text gw hstep hv
    have hws : ∀ c ∈ text.data, pyWhitespaceChar c = true → c.toNat = 32 := by
      intro c hc hw
      by_contra hne
      have hmem : c ∈ (removeSpaces text).data := by
        show c ∈ text.data.filter _
        rw [List.mem_filter]
        exact ⟨hc, by simp [hne]⟩
      have hv' := hv
      simp only [is_valid_wallet_address, Bool.and_eq_true, decide_eq_true_eq,
        List.all_eq_true] at hv'
      have hcls := hv'.2 c hmem
      simp only [inBase58RegexClass, Bool.or_eq_true, Bool.and_eq_true,
        decide_eq_true_eq] at hcls
      simp only [pyWhitespaceChar, Bool.or_eq_true, decide_eq_true_eq] at hw
      omega
    have heq : removeSpaces (pyStrip text) = removeSpaces text :=
      removeSpaces_pyStrip text hws
    have hcond : ¬ (is_valid_wallet_address (removeSpaces text) = false) := by
      rw [hv]
      simp
    constructor <;>
      simp only [dispatch, handle_user_input, hstep, heq, if_neg hcond]
  · intro s hsp
    obtain ⟨c, hc, h32⟩ := hsp
    cases hb : is_valid_wallet_address s with
    | false => rfl
    | true =>
        exfalso
        simp only [is_valid_wallet_address, Bool.and_eq_true, decide_eq_true_eq,
          List.all_eq_true] at hb
        have hcls := hb.2 c hc
        simp only [inBase58RegexClass, Bool.or_eq_true, Bool.and_eq_true,
          decide_eq_true_eq] at hcls
        omega

theorem despaced_address_accepted_witness :
    (dispatch ⟨Step.awaitingWalletAddress, Scratch.empty, []⟩
        (Event.textMessage " So1111111111111111111 1111111111111111111112 "
          (HttpOutcome.failure "x"))).scratch.address =
      some (removeSpaces " So1111111111111111111 1111111111111111111112 ") ∧
    is_valid_wallet_address " " = false :=
  ⟨(despaced_address_accepted.1 ⟨Step.awaitingWalletAddress, Scratch.empty, []⟩
      " So1111111111111111111 1111111111111111111112 " (HttpOutcome.failure "x")
      rfl (by decide)).2,
   despaced_address_accepted.2 " " (by decide)⟩

theorem process_show_more_state (st : UserState) :
    (process_show_more st).1 =
      ⟨st.step, ⟨st.scratch.address, st.scratch.rawInstr,
        some (st.scratch.rawInstrPage.getD 0 + 1)⟩, st.wallets⟩ := by
  obtain ⟨stp, ⟨a, ri, pg⟩, ws⟩ := st
  cases ri with
  | none => rfl
  | some raw =>
      simp only [process_show_more]
      split <;> rfl

theorem process_show_more_budgets (st : UserState) :
    (process_show_more st).2.max_chars = 1000 * (st.scratch.rawInstrPage.getD 0 + 1 + 1) ∧
    (process_show_more st).2.max_items = 3 * (st.scratch.rawInstrPage.getD 0 + 1 + 1) := by
  obtain ⟨stp, ⟨a, ri, pg⟩, ws⟩ := st
  cases ri with
  | none => exact ⟨rfl, rfl⟩
  | some raw =>
      simp only [process_show_more]
      split <;> exact ⟨rfl, rfl⟩

theorem process_show_more_rendered_dict (stp : Step) (a : Option String)
    (kvs : List (String × RawData)) (pg : Option Nat) (ws : List Wallet)
    (ht : kvs ≠ []) :
    (process_show_more ⟨stp, ⟨a, some (.dict kvs), pg⟩, ws⟩).2.rendered =
      some (format_raw_data (.dict kvs) (1000 * (pg.getD 0 + 1 + 1))
              (3 * (pg.getD 0 + 1 + 1)),
            decide ((pyStr (.dict kvs)).length > 1000 * (pg.getD 0 + 1 + 1))) := by
  simp [process_show_more, pyTruthy, ht]

/-- C8 amended: each Show More activation increments the page counter in
scratch, and the budgets used by the activation after `n` presses are
`1000 * (n + 2)` characters and `3 * (n + 2)` items — the base budgets
multiplied by the page number plus one, a fixed additive increment per
press rather than a fixed multiplicative growth factor; the button is
withdrawn based on the `len(str(raw_data)) > max_chars` proxy rather
than on actual truncation of the rendered text (see the counterexample,
which exhibits both failures of the original claim). -/
theorem show_more_budgets_grow_linearly (n : Nat) (raw : RawData) (ws : List Wallet) :
    (iter_show_more n ⟨Step.idle, ⟨none, some raw, some 0⟩, ws⟩).scratch.rawInstrPage =
      some n ∧
    (process_show_more
        (iter_show_more n ⟨Step.idle, ⟨none, some raw, some 0⟩, ws⟩)).2.max_chars =
      1000 * (n + 2) ∧
    (process_show_more
        (iter_show_more n ⟨Step.idle, ⟨none, some raw, some 0⟩, ws⟩)).2.max_items =
      3 * (n + 2) := by
  have hpage : ∀ m : Nat,
      (iter_show_more m ⟨Step.idle, ⟨none, some raw, some 0⟩, ws⟩).scratch.rawInstrPage =
        some m := by
    intro m
    induction m with
    | zero => rfl
    | succ k ihk =>
        show ((process_show_more (iter_show_more k _)).1).scratch.rawInstrPage = some (k + 1)
        rw [process_show_more_state]
        simp [ihk]
  refine ⟨hpage n, ?_, ?_⟩
  · rw [(process_show_more_budgets _).1, hpage n]
    simp
  · rw [(process_show_more_budgets _).2, hpage n]
    simp

/-- C8 counterexample: the claim fails on both counts. The budgets after
one and two activations are 2000 and 3000 characters — no fixed growth
factor `g` satisfies `2000 = g * 1000` and `3000 = g * 2000`. And on the
cached payload `sixFieldDict` the first activation withdraws the Show
More button (`str(raw_data)` is 54 characters, not above the 2000-char
budget) even though the rendered text is still truncated: it ends with
the `...and 1 more fields` trailer. -/
theorem show_more_growth_linear_not_geometric :
    (process_show_more ⟨Step.idle, ⟨none, some sixFieldDict, some 0⟩, []⟩).2.max_chars =
      2000 ∧
    (process_show_more
        (process_show_more
          ⟨Step.idle, ⟨none, some sixFieldDict, some 0⟩, []⟩).1).2.max_chars = 3000 ∧
    (¬ ∃ g : ℚ, (2000 : ℚ) = g * 1000 ∧ (3000 : ℚ) = g * 2000) ∧
    (process_show_more ⟨Step.idle, ⟨none, some sixFieldDict, some 0⟩, []⟩).2.rendered =
      some (d6Render, false) ∧
    format_raw_data sixFieldDict 2000 6 = d6Render ∧
    "...and 1 more fields".data.isSuffixOf d6Render.data = true := by
  have hA : fmtDictPriority priority_fields
      [("k1", RawData.num 1), ("k2", RawData.num 2), ("k3", RawData.num 3),
       ("k4", RawData.num 4), ("k5", RawData.num 5), ("k6", RawData.num 6)] 0 = ([], 0) := by
    simp [fmtDictPriority, pyLookup, priority_fields]
  have hB : fmtDictRest
      [("k1", RawData.num 1), ("k2", RawData.num 2), ("k3", RawData.num 3),
       ("k4", RawData.num 4), ("k5", RawData.num 5), ("k6", RawData.num 6)] 0 =
      ([" • K1: 1", " • K2: 2", " • K3: 3", " • K4: 4", " • K5: 5"], 5) := by
    simp [fmtDictRest, priority_fields, pyCapitalize]
    refine ⟨rfl, rfl, rfl, rfl, rfl⟩
  have hfmt : format_raw_data sixFieldDict 2000 6 = d6Render := by
    show format_raw_data (RawData.dict
        [("k1", RawData.num 1), ("k2", RawData.num 2), ("k3", RawData.num 3),
         ("k4", RawData.num 4), ("k5", RawData.num 5), ("k6", RawData.num 6)]) 2000 6 =
      d6Render
    simp only [format_raw_data, hA, hB]
    simp [joinNL, d6Render]
    rfl
  have hrepr : pyStr sixFieldDict = d6Repr := by
    show pyStr (RawData.dict
        [("k1", RawData.num 1), ("k2", RawData.num 2), ("k3", RawData.num 3),
         ("k4", RawData.num 4), ("k5", RawData.num 5), ("k6", RawData.num 6)]) = d6Repr
    simp [pyStr, pyRepr, pyReprEntries, d6Repr]
    rfl
  have hlen : (pyStr sixFieldDict).length = 54 := by rw [hrepr]; rfl
  refine ⟨rfl, rfl, ?_, ?_, hfmt, by decide⟩
  · rintro ⟨g, h1, h2⟩
    have hg : g = 2 := by linarith
    rw [hg] at h2
    norm_num at h2
  · have hsd : sixFieldDict = RawData.dict
        [("k1", RawData.num 1), ("k2", RawData.num 2), ("k3", RawData.num 3),
         ("k4", RawData.num 4), ("k5", RawData.num 5), ("k6", RawData.num 6)] := rfl
    rw [hsd, process_show_more_rendered_dict Step.idle none _ (some 0) [] (by simp),
      ← hsd]
    simp only [Option.getD_some]
    norm_num [hfmt, hlen]

theorem instruction_names_update_address (sc : Scratch) (r : RawData) :
    (instruction_names_update sc r).address = sc.address := by
  unfold instruction_names_update
  split
  · cases r <;> rfl
  · rfl

/-- C3: in every reachable per-user state, the scratch buffer holds the
key "address" exactly when the step is `awaiting_nickname`. The proof is
by induction over all reachable states: entering `awaiting_nickname`
stores the validated address, an empty-nickname retry leaves it in place,
and every transition back to idle (save, duplicate notice, cancel, menu
resets, restart of the save flow, token flows) clears the scratch. -/
theorem scratch_address_iff_awaiting_nickname (st : UserState) (h : Reachable st) :
    st.scratch.address.isSome = true ↔ st.step = Step.awaitingNickname := by
  induction h with
  | init => simp [initialUserState, Scratch.empty]
  | @step s e hs ih =>
    obtain ⟨stp, ⟨a, ri, pg⟩, ws⟩ := s
    cases e with
    | cmdStart => simp [dispatch, Scratch.empty]
    | cmdCancel => simp [dispatch, Scratch.empty]
    | cmdHelp => simpa only [dispatch] using ih
    | mainMenu => simp [dispatch, Scratch.empty]
    | walletMenu => simpa only [dispatch] using ih
    | tokenMenu => simpa only [dispatch] using ih
    | saveWalletStart => simp [dispatch, Scratch.empty]
    | myWallets => simpa only [dispatch] using ih
    | selectWallet idx => simpa only [dispatch] using ih
    | tokenDetailsStart => simp [dispatch, Scratch.empty]
    | tokenTransfersStart => simp [dispatch, Scratch.empty]
    | instructionNames r =>
        have ha := instruction_names_update_address ⟨a, ri, pg⟩ r
        simpa only [dispatch, ha] using ih
    | showMoreInstructionNames =>
        simp only [dispatch]
        rw [process_show_more_state]
        simpa only using ih
    | demo => simpa only [dispatch] using ih
    | viewHoldings idx gw => simpa only [dispatch] using ih
    | recentTransfers idx gw => simpa only [dispatch] using ih
    | setAlert idx => simpa only [dispatch] using ih
    | deleteWallet idx => simpa only [dispatch] using ih
    | endChat => simp [dispatch, Scratch.empty]
    | textMessage text gw =>
        cases stp with
        | idle => simpa only [dispatch, handle_user_input] using ih
        | awaitingWalletAddress =>
            simp only [dispatch, handle_user_input]
            split
            · simpa using ih
            · simp
        | awaitingNickname =>
            simp only [dispatch, handle_user_input]
            split
            · simpa using ih
            · cases a with
              | none => simp [Scratch.empty]
              | some addr =>
                  cases hF : ws.find? (fun w => w.address == addr) with
                  | some w => simp [hF, Scratch.empty]
                  | none => simp [hF, Scratch.empty]
        | awaitingTokenDetails =>
            simp only [dispatch, handle_user_input]
            split
            · simpa using ih
            · simp [Scratch.empty]
        | awaitingTokenTransfers =>
            simp only [dispatch, handle_user_input]
            split
            · simpa using ih
            · simp [Scratch.empty]

theorem scratch_address_iff_awaiting_nickname_witness :
    ((dispatch initialUserState Event.saveWalletStart).scratch.address.isSome = true ↔
      (dispatch initialUserState Event.saveWalletStart).step = Step.awaitingNickname) :=
  scratch_address_iff_awaiting_nickname _ (Reachable.step _ Reachable.init)

end WhaleVybes
